import Mathlib

/-!
Shallow embedding of `src/App.tsx` (single-page photo restoration app).

The component state (six `useState` fields) is modelled as a record
`SessionState`; the event handlers `handleFileChange`, `handleRestorePhoto`,
`handleDownload` and `handleReset` are modelled as pure functions.  The
asynchronous restoration call is modelled by passing the service outcome
(`Except String GenerateContentResponse`, an exception message or a response)
as an argument; `handleRestorePhoto` returns the list of requests it issues
and the trace of states produced by each state-setter call, in program order.
JavaScript string falsiness (`!x` true for `null`/`undefined`/`""`) is made
explicit through `jsFalsy`/`jsOr`, and `String.prototype.split` /
`Array.prototype.join` with one-character separators are embedded as
`splitSep`/`joinSep` on character lists.
-/

namespace PhotoApp

/-- Fixed restoration instruction (`RESTORE_PROMPT`, App.tsx line 6). -/
def RESTORE_PROMPT : String := "Restore and colorize this photo in ultra high quality 4K resolution. Remove scratches, broken lines, and visual defects. Sharpen facial details, enhance textures, and brighten the image for better clarity. Apply natural and realistic colors, making the photo vivid, clear, and true to life while preserving its authenticity."

/-- Error message set when the preconditions of `handleRestorePhoto` fail (line 133). -/
def PRECONDITION_MSG : String := "Please upload an image and ensure your API key is configured."

/-- Message of the Error thrown when no returned part carries inline image data (line 169). -/
def NO_IMAGE_MSG : String := "The AI model did not return an image. It might have refused the request."

/-- Fallback used as `e.message || ...` in the catch block (line 173). -/
def GENERIC_ERROR_MSG : String := "An error occurred during the restoration process."

/-- Error message set when reading the selected file fails (line 125). -/
def READ_FAIL_MSG : String := "Failed to read the image file."

/-- JavaScript falsiness of a nullable string: `!x` is true exactly when the
value is `null`/`undefined` or the empty string. -/
def jsFalsy : Option String → Bool
  | none => true
  | some s => s == ""

/-- JavaScript `a || b` on strings: yields `b` when `a` is empty (falsy). -/
def jsOr (a b : String) : String := if a == "" then b else a

/-- JavaScript `String.prototype.split` with a one-character separator,
expressed on character lists.  Never returns the empty list. -/
def splitSep (sep : Char) : List Char → List (List Char)
  | [] => [[]]
  | c :: cs =>
    if c = sep then [] :: splitSep sep cs
    else
      match splitSep sep cs with
      | [] => [[c]]
      | p :: ps => (c :: p) :: ps

/-- JavaScript `Array.prototype.join` with a one-character separator,
expressed on character lists. -/
def joinSep (sep : Char) : List (List Char) → List Char
  | [] => []
  | [p] => p
  | p :: q :: ps => p ++ sep :: joinSep sep (q :: ps)

/-- `s.split(sep)` for a Lean `String`. -/
def jsSplit (sep : Char) (s : String) : List String :=
  (splitSep sep s.data).map String.mk

/-- `parts.join(sep)` for Lean `String`s. -/
def jsJoin (sep : Char) (l : List String) : String :=
  String.mk (joinSep sep (l.map String.data))

/-- The template literal `data:${mimeType};base64,${b64}` (lines 121 and 163). -/
def dataUrl (mimeType b64 : String) : String :=
  "data:" ++ mimeType ++ ";base64," ++ b64

/-- The six `useState` fields of the `App` component (lines 108-113). -/
structure SessionState where
  originalImage : Option String
  originalMimeType : Option String
  restoredImage : Option String
  isLoading : Bool
  error : Option String
  fileName : Option String
deriving DecidableEq

/-- The initial values of the six `useState` calls. -/
def initialState : SessionState :=
  { originalImage := none, originalMimeType := none, restoredImage := none,
    isLoading := false, error := none, fileName := none }

/-- `handleReset` (lines 191-198): sets every field back to its initial value. -/
def handleReset (s : SessionState) : SessionState :=
  { s with originalImage := none, originalMimeType := none, restoredImage := none,
           isLoading := false, error := none, fileName := none }

/-- A selected file together with the outcome of `fileToBase64` on it:
on success a pair (base64 payload, `file.type`), on failure the rejected
read error (content irrelevant, only logged). -/
structure FileInput where
  decode : Except Unit (String × String)
  name : String

/-- `handleFileChange` (lines 115-129): if a file was selected, reset the
session, then decode; on success populate `originalImage` (as a data URL),
`originalMimeType` and `fileName`; on failure set the read-failure error. -/
def handleFileChange (s : SessionState) (file : Option FileInput) : SessionState :=
  match file with
  | none => s
  | some f =>
    let s0 := handleReset s
    match f.decode with
    | Except.ok (b64, mimeType) =>
        { s0 with originalImage := some (dataUrl mimeType b64),
                  originalMimeType := some mimeType,
                  fileName := some f.name }
    | Except.error _ => { s0 with error := some READ_FAIL_MSG }

/-- The `Modality` enum of the client library, as used on line 154. -/
inductive Modality where
  | IMAGE
  | TEXT
deriving DecidableEq

/-- Inline image data of a response content part. -/
structure InlineData where
  data : String
  mimeType : String
deriving DecidableEq

/-- One content part of a response: may carry inline image data and/or text. -/
structure ResponsePart where
  inlineData : Option InlineData := none
  text : Option String := none
deriving DecidableEq

/-- `content` of a response candidate; its `parts` may be absent. -/
structure Content where
  parts : Option (List ResponsePart)
deriving DecidableEq

/-- One candidate of a response; its `content` may be absent. -/
structure Candidate where
  content : Option Content
deriving DecidableEq

/-- A `generateContent` response: an optional list of candidates. -/
structure GenerateContentResponse where
  candidates : Option (List Candidate)
deriving DecidableEq

/-- The expression `response.candidates?.[0]?.content?.parts || []` (line 159). -/
def responseParts (r : GenerateContentResponse) : List ResponsePart :=
  (((r.candidates.bind fun cs => cs[0]?).bind Candidate.content).bind Content.parts).getD []

/-- The `for ... of` loop of lines 158-167: the first part whose `inlineData`
is present (the loop `break`s there), if any. -/
def findFirstInlineData : List ResponsePart → Option InlineData
  | [] => none
  | p :: ps =>
    match p.inlineData with
    | some d => some d
    | none => findFirstInlineData ps

/-- Inline data of a request part; `data` is optional because
`originalImage.split(',')[1]` can be `undefined`. -/
structure ReqInlineData where
  data : Option String
  mimeType : String
deriving DecidableEq

/-- One content part of the outbound request. -/
structure ReqPart where
  inlineData : Option ReqInlineData := none
  text : Option String := none
deriving DecidableEq

/-- The outbound `generateContent` request (lines 145-156): model name,
content parts and requested response modalities. -/
structure GenRequest where
  model : String
  parts : List ReqPart
  responseModalities : List Modality
deriving DecidableEq

/-- The state after the response-specific setter inside the try/catch of
`handleRestorePhoto` has run on the current state `cur`: on an exception the
catch block sets `error` to `e.message || GENERIC_ERROR_MSG`; on a response,
either the first inline-data part becomes `restoredImage`, or the no-image
Error is thrown and caught, setting `error` to its message. -/
def applyResponseMid (svc : Except String GenerateContentResponse)
    (cur : SessionState) : SessionState :=
  match svc with
  | Except.error msg => { cur with error := some (jsOr msg GENERIC_ERROR_MSG) }
  | Except.ok resp =>
    match findFirstInlineData (responseParts resp) with
    | some d => { cur with restoredImage := some (dataUrl d.mimeType d.data) }
    | none => { cur with error := some NO_IMAGE_MSG }

/-- The state after the `finally` block has additionally cleared `isLoading`. -/
def applyResponse (svc : Except String GenerateContentResponse)
    (cur : SessionState) : SessionState :=
  { applyResponseMid svc cur with isLoading := false }

/-- One run of `handleRestorePhoto`: the outbound requests it issued and the
trace of states produced by its state-setter calls, in program order. -/
structure RestoreRun where
  requests : List GenRequest
  states : List SessionState

/-- The last state of a run's trace (the trace is never empty). -/
def RestoreRun.finalState (r : RestoreRun) : SessionState :=
  r.states.getLastD initialState

/-- `handleRestorePhoto` (lines 131-178).  `apiKey` models
`process.env.API_KEY`; `svc` models the outcome of the awaited
`generateContent` call (exception message or response). -/
def handleRestorePhoto (s : SessionState) (apiKey : Option String)
    (svc : Except String GenerateContentResponse) : RestoreRun :=
  if jsFalsy s.originalImage || jsFalsy s.originalMimeType || jsFalsy apiKey then
    { requests := [], states := [{ s with error := some PRECONDITION_MSG }] }
  else
    let s1 : SessionState := { s with isLoading := true }
    let s2 : SessionState := { s1 with error := none }
    let s3 : SessionState := { s2 with restoredImage := none }
    let base64Data : Option String := (jsSplit ',' (s.originalImage.getD ""))[1]?
    let req : GenRequest :=
      { model := "gemini-2.5-flash-image-preview",
        parts := [⟨some ⟨base64Data, s.originalMimeType.getD ""⟩, none⟩,
                  ⟨none, some RESTORE_PROMPT⟩],
        responseModalities := [Modality.IMAGE, Modality.TEXT] }
    { requests := [req],
      states := [s1, s2, s3, applyResponseMid svc s3, applyResponse svc s3] }

/-- The save-as action triggered through the temporary `<a>` element. -/
structure DownloadAction where
  href : String
  download : String
deriving DecidableEq

/-- `fileName?.split('.').slice(0, -1).join('.') || 'photo'` (line 184). -/
def downloadBaseName : Option String → String
  | none => "photo"
  | some n => jsOr (jsJoin '.' ((jsSplit '.' n).dropLast)) "photo"

/-- `handleDownload` (lines 180-189): no action when `restoredImage` is
falsy; otherwise a save-as of the restored data URL under
`<base>-restored.png`.  No state field is written. -/
def handleDownload (s : SessionState) : Option DownloadAction :=
  if jsFalsy s.restoredImage then none
  else some { href := s.restoredImage.getD "",
              download := downloadBaseName s.fileName ++ "-restored.png" }

/-! Basic facts about the embedded JavaScript string operations. -/

theorem data_append (a b : String) : (a ++ b).data = a.data ++ b.data := rfl

theorem data_mk (l : List Char) : (String.mk l).data = l := rfl

theorem mk_data (s : String) : String.mk s.data = s := rfl

theorem splitSep_ne_nil (sep : Char) (l : List Char) : splitSep sep l ≠ [] := by
  cases l with
  | nil => simp [splitSep]
  | cons c cs =>
    by_cases hc : c = sep
    · simp [splitSep, hc]
    · cases hsp : splitSep sep cs with
      | nil => simp [splitSep, hc, hsp]
      | cons p ps => simp [splitSep, hc, hsp]

theorem splitSep_eq_single (sep : Char) (l : List Char) (h : sep ∉ l) :
    splitSep sep l = [l] := by
  induction l with
  | nil => rfl
  | cons c cs ih =>
    rw [List.mem_cons] at h
    push_neg at h
    obtain ⟨h1, h2⟩ := h
    simp [splitSep, Ne.symm h1, ih h2]

theorem splitSep_append_sep (sep : Char) (xs ys : List Char) :
    splitSep sep (xs ++ sep :: ys) = splitSep sep xs ++ splitSep sep ys := by
  induction xs with
  | nil => simp [splitSep]
  | cons c cs ih =>
    by_cases hc : c = sep
    · simp [splitSep, hc, ih]
    · cases hsp : splitSep sep cs with
      | nil => exact absurd hsp (splitSep_ne_nil sep cs)
      | cons p ps => simp [splitSep, hc, ih, hsp]

theorem joinSep_cons_cons (sep c : Char) (p : List Char) (ps : List (List Char)) :
    joinSep sep ((c :: p) :: ps) = c :: joinSep sep (p :: ps) := by
  cases ps <;> rfl

theorem joinSep_splitSep (sep : Char) (l : List Char) :
    joinSep sep (splitSep sep l) = l := by
  induction l with
  | nil => rfl
  | cons c cs ih =>
    cases hsp : splitSep sep cs with
    | nil => exact absurd hsp (splitSep_ne_nil sep cs)
    | cons p ps =>
      rw [hsp] at ih
      by_cases hc : c = sep
      · subst hc
        simp [splitSep, hsp, joinSep, ih]
      · simp [splitSep, hc, hsp, joinSep_cons_cons, ih]

theorem jsFalsy_some_of_ne (s : String) (h : s ≠ "") : jsFalsy (some s) = false :=
  beq_eq_false_iff_ne.mpr h

theorem dataUrl_ne_empty (m b : String) : dataUrl m b ≠ "" := by
  intro h
  have h2 := congrArg String.data h
  rw [dataUrl, data_append, data_append, data_append] at h2
  have h3 : "data:".data = ['d', 'a', 't', 'a', ':'] := rfl
  rw [h3] at h2
  simp at h2

theorem jsSplit_dataUrl (m b : String) (hm : ',' ∉ m.data) (hb : ',' ∉ b.data) :
    jsSplit ',' (dataUrl m b) = ["data:" ++ m ++ ";base64", b] := by
  have hdata : (dataUrl m b).data
      = ("data:".data ++ m.data ++ ";base64".data) ++ ',' :: b.data := by
    rw [dataUrl, data_append, data_append, data_append]
    have h1 : ";base64,".data = ";base64".data ++ [','] := rfl
    rw [h1]
    simp [List.append_assoc]
  have hpre : ',' ∉ "data:".data ++ m.data ++ ";base64".data := by
    intro hmem
    rw [List.mem_append, List.mem_append] at hmem
    rcases hmem with (h | h) | h
    · exact absurd h (by decide)
    · exact hm h
    · exact absurd h (by decide)
  unfold jsSplit
  rw [hdata, splitSep_append_sep, splitSep_eq_single _ _ hpre, splitSep_eq_single _ _ hb]
  have hmk : String.mk ("data:".data ++ m.data ++ ";base64".data)
      = "data:" ++ m ++ ";base64" := by
    rw [← data_append, ← data_append, mk_data]
  rw [List.singleton_append]
  simp only [List.map_cons, List.map_nil]
  rw [hmk, mk_data]

theorem downloadBaseName_some (n : String) :
    downloadBaseName (some n) = jsOr (jsJoin '.' ((jsSplit '.' n).dropLast)) "photo" := rfl

theorem downloadBaseName_strip (b e : String) (he : '.' ∉ e.data) (hb : b ≠ "") :
    downloadBaseName (some (b ++ "." ++ e)) = b := by
  have hdata : (b ++ "." ++ e).data = b.data ++ '.' :: e.data := by
    rw [data_append, data_append]
    have h1 : ".".data = ['.'] := rfl
    rw [h1]
    simp [List.append_assoc]
  rw [downloadBaseName_some]
  unfold jsSplit jsJoin
  rw [hdata, splitSep_append_sep, splitSep_eq_single _ _ he]
  rw [List.map_append]
  have hsingle : List.map String.mk [e.data] = [String.mk e.data] := rfl
  rw [hsingle, List.dropLast_concat, List.map_map]
  have hcomp : List.map (String.data ∘ String.mk) (splitSep '.' b.data)
      = splitSep '.' b.data := by
    simp [Function.comp_def, data_mk]
  rw [hcomp, joinSep_splitSep, mk_data, jsOr, if_neg]
  simp [hb]

theorem downloadBaseName_dotless (n : String) (h : '.' ∉ n.data) :
    downloadBaseName (some n) = "photo" := by
  rw [downloadBaseName_some]
  unfold jsSplit
  rw [splitSep_eq_single _ _ h]
  rfl

/-! Characterizations of the restore handler. -/

theorem findFirstInlineData_eq_none (l : List ResponsePart)
    (h : ∀ p ∈ l, p.inlineData = none) : findFirstInlineData l = none := by
  induction l with
  | nil => rfl
  | cons p ps ih =>
    have hp := h p (List.mem_cons_self p ps)
    simp only [findFirstInlineData, hp]
    exact ih fun q hq => h q (List.mem_cons_of_mem _ hq)

theorem findFirstInlineData_first (pre post : List ResponsePart) (d : InlineData)
    (t : Option String) (h : ∀ p ∈ pre, p.inlineData = none) :
    findFirstInlineData
      (pre ++ ({ inlineData := some d, text := t } : ResponsePart) :: post) = some d := by
  induction pre with
  | nil => simp [findFirstInlineData]
  | cons p ps ih =>
    have hp := h p (List.mem_cons_self p ps)
    simp only [List.cons_append, findFirstInlineData, hp]
    exact ih fun q hq => h q (List.mem_cons_of_mem _ hq)

theorem applyResponseMid_isLoading (svc : Except String GenerateContentResponse)
    (cur : SessionState) : (applyResponseMid svc cur).isLoading = cur.isLoading := by
  unfold applyResponseMid
  cases svc with
  | error m => rfl
  | ok r =>
    cases h : findFirstInlineData (responseParts r) with
    | none => simp [h]
    | some d => simp [h]

theorem applyResponse_isLoading (svc : Except String GenerateContentResponse)
    (cur : SessionState) : (applyResponse svc cur).isLoading = false := rfl

theorem handleRestorePhoto_precond_fail (s : SessionState) (apiKey : Option String)
    (svc : Except String GenerateContentResponse)
    (h : (jsFalsy s.originalImage || jsFalsy s.originalMimeType || jsFalsy apiKey) = true) :
    handleRestorePhoto s apiKey svc =
      { requests := [], states := [{ s with error := some PRECONDITION_MSG }] } := by
  simp only [handleRestorePhoto, h, if_true]

theorem handleRestorePhoto_run (s : SessionState) (apiKey : Option String)
    (svc : Except String GenerateContentResponse)
    (h : (jsFalsy s.originalImage || jsFalsy s.originalMimeType || jsFalsy apiKey) = false) :
    handleRestorePhoto s apiKey svc =
      { requests := [{ model := "gemini-2.5-flash-image-preview",
                       parts := [⟨some ⟨(jsSplit ',' (s.originalImage.getD ""))[1]?,
                                        s.originalMimeType.getD ""⟩, none⟩,
                                 ⟨none, some RESTORE_PROMPT⟩],
                       responseModalities := [Modality.IMAGE, Modality.TEXT] }],
        states := [{ s with isLoading := true },
                   { s with isLoading := true, error := none },
                   { s with isLoading := true, error := none, restoredImage := none },
                   applyResponseMid svc
                     { s with isLoading := true, error := none, restoredImage := none },
                   applyResponse svc
                     { s with isLoading := true, error := none, restoredImage := none }] } := by
  simp only [handleRestorePhoto, h, Bool.false_eq_true, if_false]

/-! Sample concrete inputs used by witnesses and counterexamples. -/

/-- A session state as produced by a successful upload of `a.png`. -/
def sampleState : SessionState :=
  { originalImage := some "data:image/png;base64,QUJD",
    originalMimeType := some "image/png", restoredImage := none,
    isLoading := false, error := none, fileName := some "a.png" }

/-- A response whose single content part carries only text (a refusal). -/
def noImageResponse : GenerateContentResponse :=
  { candidates := some [{ content := some { parts := some [⟨none, some "cannot do that"⟩] } }] }

/-- Content parts of `imageResponse`: a text part, then two image parts. -/
def imageResponseParts : List ResponsePart :=
  [⟨none, some "here you go"⟩,
   ⟨some ⟨"QkJC", "image/png"⟩, none⟩,
   ⟨some ⟨"WFla", "image/jpeg"⟩, none⟩]

/-- A response with a leading text part, then two inline-image parts. -/
def imageResponse : GenerateContentResponse :=
  { candidates := some [{ content := some { parts := some imageResponseParts } }] }

/-! Claim theorems. -/

/-- C1: for every response whose content parts contain no inline image data
(and a run that passes the preconditions), `handleRestorePhoto` ends with the
non-empty no-image error message set, with `restoredImage` still null and
`isLoading` cleared — never in a Restored state. -/
theorem restore_no_image_parts_fails (s : SessionState) (apiKey : Option String)
    (resp : GenerateContentResponse)
    (hpre : (jsFalsy s.originalImage || jsFalsy s.originalMimeType || jsFalsy apiKey) = false)
    (hno : ∀ p ∈ responseParts resp, p.inlineData = none) :
    (handleRestorePhoto s apiKey (Except.ok resp)).finalState.error = some NO_IMAGE_MSG ∧
    NO_IMAGE_MSG ≠ "" ∧
    (handleRestorePhoto s apiKey (Except.ok resp)).finalState.restoredImage = none ∧
    (handleRestorePhoto s apiKey (Except.ok resp)).finalState.isLoading = false := by
  rw [handleRestorePhoto_run s apiKey _ hpre]
  have hf := findFirstInlineData_eq_none _ hno
  refine ⟨?_, by decide, ?_, ?_⟩ <;>
    simp [RestoreRun.finalState, applyResponse, applyResponseMid, hf]

/-- Witness for C1: a concrete state and a concrete text-only response. -/
theorem restore_no_image_parts_fails_witness :
    (handleRestorePhoto sampleState (some "key") (Except.ok noImageResponse)).finalState.error
        = some NO_IMAGE_MSG ∧
    NO_IMAGE_MSG ≠ "" ∧
    (handleRestorePhoto sampleState (some "key")
        (Except.ok noImageResponse)).finalState.restoredImage = none ∧
    (handleRestorePhoto sampleState (some "key")
        (Except.ok noImageResponse)).finalState.isLoading = false :=
  restore_no_image_parts_fails sampleState (some "key") noImageResponse
    (by decide) (by decide)

/-- C2: when the response's first image-bearing part (after any number of
non-image parts) carries payload `P` and media type `M`, the run ends with
`restoredImage` exactly the data URL built from `M` and `P`, whatever image
parts follow (they are ignored since the loop breaks at the first one). -/
theorem restore_first_image_part_sets_restoredImage (s : SessionState)
    (apiKey : Option String) (resp : GenerateContentResponse)
    (pre post : List ResponsePart) (P M : String) (t : Option String)
    (hpre : (jsFalsy s.originalImage || jsFalsy s.originalMimeType || jsFalsy apiKey) = false)
    (hparts : responseParts resp
      = pre ++ ({ inlineData := some ⟨P, M⟩, text := t } : ResponsePart) :: post)
    (hnone : ∀ p ∈ pre, p.inlineData = none) :
    (handleRestorePhoto s apiKey (Except.ok resp)).finalState =
      { s with restoredImage := some (dataUrl M P), isLoading := false, error := none } := by
  rw [handleRestorePhoto_run s apiKey _ hpre]
  have hf : findFirstInlineData (responseParts resp) = some ⟨P, M⟩ := by
    rw [hparts]
    exact findFirstInlineData_first pre post ⟨P, M⟩ t hnone
  simp [RestoreRun.finalState, applyResponse, applyResponseMid, hf]

/-- Witness for C2: a concrete response with a text part, then two image
parts; the first image part wins and the second is ignored. -/
theorem restore_first_image_part_sets_restoredImage_witness :
    (handleRestorePhoto sampleState (some "key") (Except.ok imageResponse)).finalState =
      { sampleState with restoredImage := some (dataUrl "image/png" "QkJC"),
                         isLoading := false, error := none } :=
  restore_first_image_part_sets_restoredImage sampleState (some "key") imageResponse
    [⟨none, some "here you go"⟩] [⟨some ⟨"WFla", "image/jpeg"⟩, none⟩]
    "QkJC" "image/png" none (by decide) (by decide) (by decide)

/-- C3: when `originalImage` is absent or the API credential is not
configured (absent or empty), `handleRestorePhoto` issues no request, sets
the precondition error, and changes no other state field. -/
theorem restore_missing_precondition_no_request (s : SessionState)
    (apiKey : Option String) (svc : Except String GenerateContentResponse)
    (h : s.originalImage = none ∨ jsFalsy apiKey = true) :
    (handleRestorePhoto s apiKey svc).requests = [] ∧
    (handleRestorePhoto s apiKey svc).states = [{ s with error := some PRECONDITION_MSG }] := by
  have hf : (jsFalsy s.originalImage || jsFalsy s.originalMimeType || jsFalsy apiKey) = true := by
    rcases h with h | h
    · rw [h]
      rfl
    · simp [h]
  rw [handleRestorePhoto_precond_fail s apiKey svc hf]
  exact ⟨rfl, rfl⟩

/-- Witness for C3: no prior upload (initial state) with a configured key. -/
theorem restore_missing_precondition_no_request_witness :
    (handleRestorePhoto initialState (some "key") (Except.error "boom")).requests = [] ∧
    (handleRestorePhoto initialState (some "key") (Except.error "boom")).states
      = [{ initialState with error := some PRECONDITION_MSG }] :=
  restore_missing_precondition_no_request initialState (some "key")
    (Except.error "boom") (Or.inl rfl)

/-- C4: on every run that passes the preconditions — whatever the service
outcome, including a thrown exception — `isLoading` is true in every state of
the trace up to the terminal one, and the terminal state has `isLoading`
cleared. -/
theorem restore_isLoading_interval (s : SessionState) (apiKey : Option String)
    (svc : Except String GenerateContentResponse)
    (hpre : (jsFalsy s.originalImage || jsFalsy s.originalMimeType || jsFalsy apiKey) = false) :
    (handleRestorePhoto s apiKey svc).states ≠ [] ∧
    (∀ st ∈ (handleRestorePhoto s apiKey svc).states.dropLast, st.isLoading = true) ∧
    (handleRestorePhoto s apiKey svc).finalState.isLoading = false := by
  rw [handleRestorePhoto_run s apiKey svc hpre]
  refine ⟨by simp, ?_, ?_⟩
  · intro st hst
    simp only [List.dropLast, List.mem_cons, List.not_mem_nil, or_false] at hst
    rcases hst with h | h | h | h <;> subst h
    · rfl
    · rfl
    · rfl
    · rw [applyResponseMid_isLoading]
  · simp [RestoreRun.finalState, applyResponse_isLoading]

/-- Witness for C4: a run that ends in a simulated network exception. -/
theorem restore_isLoading_interval_witness :
    (handleRestorePhoto sampleState (some "key") (Except.error "network timeout")).states ≠ [] ∧
    (∀ st ∈ (handleRestorePhoto sampleState (some "key")
        (Except.error "network timeout")).states.dropLast, st.isLoading = true) ∧
    (handleRestorePhoto sampleState (some "key")
        (Except.error "network timeout")).finalState.isLoading = false :=
  restore_isLoading_interval sampleState (some "key") (Except.error "network timeout")
    (by decide)

/-- C8: a new upload first resets the whole session; on decode success the
state is exactly the reset state with `originalImage` (a data URL built from
the decoded payload), `originalMimeType` and `fileName` populated; on decode
failure only the read-failure error is set and `originalImage` stays null. -/
theorem upload_resets_then_populates_or_errors (s : SessionState) (f : FileInput) :
    (∀ b64 mimeType, f.decode = Except.ok (b64, mimeType) →
      handleFileChange s (some f) =
        { originalImage := some (dataUrl mimeType b64), originalMimeType := some mimeType,
          restoredImage := none, isLoading := false, error := none,
          fileName := some f.name }) ∧
    (∀ e, f.decode = Except.error e →
      handleFileChange s (some f) = { initialState with error := some READ_FAIL_MSG } ∧
      (handleFileChange s (some f)).originalImage = none) := by
  constructor
  · intro b64 mt h
    simp [handleFileChange, handleReset, h]
  · intro e h
    simp [handleFileChange, handleReset, h, initialState]

/-- Witness for C8: a good decode and a failed decode, both concrete. -/
theorem upload_resets_then_populates_or_errors_witness :
    handleFileChange initialState (some ⟨Except.ok ("QUJD", "image/png"), "a.png"⟩) =
      { originalImage := some (dataUrl "image/png" "QUJD"),
        originalMimeType := some "image/png", restoredImage := none,
        isLoading := false, error := none, fileName := some "a.png" } ∧
    handleFileChange initialState (some ⟨Except.error (), "bad.bin"⟩) =
      { initialState with error := some READ_FAIL_MSG } :=
  ⟨(upload_resets_then_populates_or_errors initialState
      ⟨Except.ok ("QUJD", "image/png"), "a.png"⟩).1 "QUJD" "image/png" rfl,
   ((upload_resets_then_populates_or_errors initialState
      ⟨Except.error (), "bad.bin"⟩).2 () rfl).1⟩

/-- C7: uploading a valid image file (decoded to a comma-free base64 payload
and a comma-free, non-empty media type) and immediately requesting
restoration issues exactly one request, carrying the uploaded payload, the
uploaded media type, and the fixed restoration instruction, asking for image
and text response modalities. -/
theorem upload_then_restore_single_request (b64 mimeType name k : String)
    (svc : Except String GenerateContentResponse)
    (hm : mimeType ≠ "") (hk : k ≠ "")
    (hmc : ',' ∉ mimeType.data) (hbc : ',' ∉ b64.data) :
    (handleRestorePhoto
        (handleFileChange initialState (some ⟨Except.ok (b64, mimeType), name⟩))
        (some k) svc).requests =
      [{ model := "gemini-2.5-flash-image-preview",
         parts := [⟨some ⟨some b64, mimeType⟩, none⟩, ⟨none, some RESTORE_PROMPT⟩],
         responseModalities := [Modality.IMAGE, Modality.TEXT] }] := by
  have hs : handleFileChange initialState (some ⟨Except.ok (b64, mimeType), name⟩) =
      { originalImage := some (dataUrl mimeType b64), originalMimeType := some mimeType,
        restoredImage := none, isLoading := false, error := none,
        fileName := some name } := by
    simp [handleFileChange, handleReset]
  rw [hs]
  have hpre : (jsFalsy (some (dataUrl mimeType b64)) || jsFalsy (some mimeType)
      || jsFalsy (some k)) = false := by
    rw [jsFalsy_some_of_ne _ (dataUrl_ne_empty mimeType b64),
        jsFalsy_some_of_ne _ hm, jsFalsy_some_of_ne _ hk]
    rfl
  rw [handleRestorePhoto_run _ _ _ hpre]
  simp [jsSplit_dataUrl mimeType b64 hmc hbc]

/-- Witness for C7: concrete payload, media type, file name and key. -/
theorem upload_then_restore_single_request_witness :
    (handleRestorePhoto
        (handleFileChange initialState (some ⟨Except.ok ("QUJD", "image/png"), "a.png"⟩))
        (some "key") (Except.error "boom")).requests =
      [{ model := "gemini-2.5-flash-image-preview",
         parts := [⟨some ⟨some "QUJD", "image/png"⟩, none⟩, ⟨none, some RESTORE_PROMPT⟩],
         responseModalities := [Modality.IMAGE, Modality.TEXT] }] :=
  upload_then_restore_single_request "QUJD" "image/png" "a.png" "key"
    (Except.error "boom") (by decide) (by decide) (by decide) (by decide)

/-- C9: with no restored image the download handler does nothing; with a
restored image present it suggests the original name with its last extension
segment stripped and `-restored.png` appended, and falls back to the base
name `photo` when no original name is known.  It returns only a save-as
action and writes no state field. -/
theorem download_filename_spec (s : SessionState) :
    (s.restoredImage = none → handleDownload s = none) ∧
    (∀ img b e, s.restoredImage = some img → img ≠ "" →
      s.fileName = some (b ++ "." ++ e) → '.' ∉ e.data → b ≠ "" →
      handleDownload s = some ⟨img, b ++ "-restored.png"⟩) ∧
    (∀ img, s.restoredImage = some img → img ≠ "" → s.fileName = none →
      handleDownload s = some ⟨img, "photo-restored.png"⟩) := by
  refine ⟨?_, ?_, ?_⟩
  · intro h
    simp [handleDownload, h, jsFalsy]
  · intro img b e hri hine hfn hdot hbne
    simp only [handleDownload, hri, jsFalsy_some_of_ne _ hine, Bool.false_eq_true,
      if_false, Option.getD_some, hfn]
    rw [downloadBaseName_strip b e hdot hbne]
  · intro img hri hine hfn
    simp only [handleDownload, hri, jsFalsy_some_of_ne _ hine, Bool.false_eq_true,
      if_false, Option.getD_some, hfn]
    rfl

/-- Witness for C9: `grandma.jpg` yields `grandma-restored.png`; and with no
restored image nothing happens. -/
theorem download_filename_spec_witness :
    handleDownload { originalImage := some "data:image/jpeg;base64,QUJD",
                     originalMimeType := some "image/jpeg",
                     restoredImage := some "data:image/png;base64,QkJC",
                     isLoading := false, error := none,
                     fileName := some "grandma.jpg" } =
      some ⟨"data:image/png;base64,QkJC", "grandma-restored.png"⟩ ∧
    handleDownload initialState = none :=
  ⟨(download_filename_spec _).2.1 "data:image/png;base64,QkJC" "grandma" "jpg"
      rfl (by decide) rfl (by decide) (by decide),
   (download_filename_spec initialState).1 rfl⟩

/-- C10: with a restored image present and a known file name containing no
dot, the extension-stripping step yields the empty string, so the suggested
download name falls back to `photo-restored.png` even though a name is known. -/
theorem download_dotless_filename_photo (s : SessionState) (img n : String)
    (hri : s.restoredImage = some img) (hine : img ≠ "")
    (hfn : s.fileName = some n) (hdot : '.' ∉ n.data) :
    handleDownload s = some ⟨img, "photo-restored.png"⟩ := by
  simp only [handleDownload, hri, jsFalsy_some_of_ne _ hine, Bool.false_eq_true,
    if_false, Option.getD_some, hfn]
  rw [downloadBaseName_dotless n hdot]
  rfl

/-- Witness for C10: file name `archive` (dotless) yields
`photo-restored.png`. -/
theorem download_dotless_filename_photo_witness :
    handleDownload { originalImage := some "data:image/png;base64,QUJD",
                     originalMimeType := some "image/png",
                     restoredImage := some "data:image/png;base64,QkJC",
                     isLoading := false, error := none,
                     fileName := some "archive" } =
      some ⟨"data:image/png;base64,QkJC", "photo-restored.png"⟩ :=
  download_dotless_filename_photo _ "data:image/png;base64,QkJC" "archive"
    rfl (by decide) rfl (by decide)

/-- A session state carrying a stale error from a previous failed request. -/
def staleErrorState : SessionState :=
  { originalImage := some "data:image/png;base64,QUJD",
    originalMimeType := some "image/png", restoredImage := none,
    isLoading := false, error := some "previous failure", fileName := some "a.png" }

/-- Counterexample to C6 as stated: the handler sets `isLoading = true`
(line 137) before clearing `error` (line 138), so the first state of the
trace of a request transition still carries the previous error while
`isLoading` is already true — `error` is not cleared before `isLoading` is
set, and both are active at once at that point. -/
theorem restore_error_cleared_before_isLoading_cex :
    (handleRestorePhoto staleErrorState (some "key") (Except.error "boom")).states.head?
      = some { staleErrorState with isLoading := true } ∧
    ∃ st ∈ (handleRestorePhoto staleErrorState (some "key") (Except.error "boom")).states,
      st.isLoading = true ∧ st.error ≠ none := by
  decide

/-- C6 (amended): a request transition that passes the preconditions sets
`isLoading = true` first and clears `error` immediately afterwards, still
before the request is dispatched, so at dispatch time `error` is none while
`isLoading` is true (the stated order — error cleared before `isLoading` is
set — is reversed in the code). -/
theorem restore_sets_isLoading_then_clears_error (s : SessionState)
    (apiKey : Option String) (svc : Except String GenerateContentResponse)
    (hpre : (jsFalsy s.originalImage || jsFalsy s.originalMimeType || jsFalsy apiKey) = false) :
    (handleRestorePhoto s apiKey svc).states.head? = some { s with isLoading := true } ∧
    (handleRestorePhoto s apiKey svc).states[1]?
      = some { s with isLoading := true, error := none } ∧
    (handleRestorePhoto s apiKey svc).states[2]?
      = some { s with isLoading := true, error := none, restoredImage := none } := by
  rw [handleRestorePhoto_run s apiKey svc hpre]
  exact ⟨rfl, rfl, rfl⟩

/-- Witness for the amended C6: concrete state with a stale error. -/
theorem restore_sets_isLoading_then_clears_error_witness :
    (handleRestorePhoto staleErrorState (some "key") (Except.error "boom")).states.head?
      = some { staleErrorState with isLoading := true } ∧
    (handleRestorePhoto staleErrorState (some "key") (Except.error "boom")).states[1]?
      = some { staleErrorState with isLoading := true, error := none } ∧
    (handleRestorePhoto staleErrorState (some "key") (Except.error "boom")).states[2]?
      = some { staleErrorState with isLoading := true, error := none, restoredImage := none } :=
  restore_sets_isLoading_then_clears_error staleErrorState (some "key")
    (Except.error "boom") (by decide)

/-! Interleaved intent machine, for the reachability invariant of the spec.
Intents invoke the handlers directly; per the spec the UI's disabling of
controls is an advisory lock only, and `Reset()` is specified as available
in any state, including mid-restoration. -/

/-- One user or asynchronous intent. -/
inductive Intent where
  | upload (file : Option FileInput)
  | restore (apiKey : Option String)
  | complete (svc : Except String GenerateContentResponse)
  | download
  | reset

/-- Machine state: the visible session state plus the number of in-flight
`generateContent` calls whose continuations have not yet run. -/
structure MachineState where
  sess : SessionState
  pending : Nat
deriving DecidableEq

/-- The machine starts with an empty session and nothing in flight. -/
def initMachine : MachineState := { sess := initialState, pending := 0 }

/-- One intent step.  `restore` runs the synchronous prefix of
`handleRestorePhoto` (precondition check, then the three setters before the
await) and registers the in-flight call; `complete` runs the rest of the
handler (response scan or catch, then finally) against the current state,
exactly as the awaited continuation's setters do. -/
def stepM (m : MachineState) : Intent → MachineState
  | Intent.upload f => { m with sess := handleFileChange m.sess f }
  | Intent.restore apiKey =>
    if jsFalsy m.sess.originalImage || jsFalsy m.sess.originalMimeType || jsFalsy apiKey then
      { m with sess := { m.sess with error := some PRECONDITION_MSG } }
    else
      { sess := { m.sess with isLoading := true, error := none, restoredImage := none },
        pending := m.pending + 1 }
  | Intent.complete svc =>
    match m.pending with
    | 0 => m
    | n + 1 => { sess := applyResponse svc m.sess, pending := n }
  | Intent.download => m
  | Intent.reset => { m with sess := handleReset m.sess }

/-- States reachable by any sequence of intents. -/
inductive Reachable : MachineState → Prop where
  | init : Reachable initMachine
  | step {m : MachineState} (i : Intent) : Reachable m → Reachable (stepM m i)

/-- States reachable by sequences in which `upload` and `reset` are never
issued while a request is in flight. -/
inductive SafeReachable : MachineState → Prop where
  | init : SafeReachable initMachine
  | upload {m : MachineState} (f : Option FileInput) :
      SafeReachable m → m.pending = 0 → SafeReachable (stepM m (Intent.upload f))
  | restore {m : MachineState} (apiKey : Option String) :
      SafeReachable m → SafeReachable (stepM m (Intent.restore apiKey))
  | complete {m : MachineState} (svc : Except String GenerateContentResponse) :
      SafeReachable m → SafeReachable (stepM m (Intent.complete svc))
  | download {m : MachineState} : SafeReachable m → SafeReachable (stepM m Intent.download)
  | reset {m : MachineState} :
      SafeReachable m → m.pending = 0 → SafeReachable (stepM m Intent.reset)

theorem applyResponseMid_originalImage (svc : Except String GenerateContentResponse)
    (cur : SessionState) :
    (applyResponseMid svc cur).originalImage = cur.originalImage := by
  unfold applyResponseMid
  cases svc with
  | error m => rfl
  | ok r =>
    cases h : findFirstInlineData (responseParts r) with
    | none => simp [h]
    | some d => simp [h]

theorem applyResponse_originalImage (svc : Except String GenerateContentResponse)
    (cur : SessionState) :
    (applyResponse svc cur).originalImage = cur.originalImage :=
  applyResponseMid_originalImage svc cur

theorem safeReachable_invariant (m : MachineState) (h : SafeReachable m) :
    (0 < m.pending → m.sess.originalImage ≠ none) ∧
    (m.sess.restoredImage ≠ none → m.sess.originalImage ≠ none) := by
  induction h with
  | init =>
    refine ⟨fun hlt => ?_, fun hr => ?_⟩
    · simp [initMachine] at hlt
    · simp [initMachine, initialState] at hr
  | @upload m f hm hp ih =>
    refine ⟨fun hlt => ?_, fun hr => ?_⟩
    · simp only [stepM] at hlt
      rw [hp] at hlt
      exact absurd hlt (by decide)
    · simp only [stepM] at hr ⊢
      match f with
      | none => exact ih.2 hr
      | some fi =>
        match hd : fi.decode with
        | Except.ok (b64, mt) => simp [handleFileChange, handleReset, hd]
        | Except.error e => simp [handleFileChange, handleReset, hd] at hr
  | @restore m apiKey hm ih =>
    by_cases hc : (jsFalsy m.sess.originalImage || jsFalsy m.sess.originalMimeType
        || jsFalsy apiKey) = true
    · refine ⟨fun hlt => ?_, fun hr => ?_⟩
      · simp only [stepM, if_pos hc] at hlt ⊢
        exact ih.1 hlt
      · simp only [stepM, if_pos hc] at hr ⊢
        exact ih.2 hr
    · have horig : m.sess.originalImage ≠ none := by
        rcases ho : m.sess.originalImage with _ | x
        · rw [Bool.or_eq_true, Bool.or_eq_true] at hc
          push_neg at hc
          rw [ho] at hc
          exact absurd rfl hc.1.1
        · exact Option.some_ne_none x
      refine ⟨fun hlt => ?_, fun hr => ?_⟩
      · simp only [stepM, if_neg hc]
        exact horig
      · simp only [stepM, if_neg hc]
        exact horig
  | @complete m svc hm ih =>
    cases hp : m.pending with
    | zero =>
      refine ⟨fun hlt => ?_, fun hr => ?_⟩
      · simp only [stepM, hp] at hlt ⊢
        exact ih.1 (by rw [hp]; exact hlt)
      · simp only [stepM, hp] at hr ⊢
        exact ih.2 hr
    | succ n =>
      have horig : m.sess.originalImage ≠ none := ih.1 (by rw [hp]; exact Nat.succ_pos n)
      refine ⟨fun hlt => ?_, fun hr => ?_⟩
      · simp only [stepM, hp]
        rw [applyResponse_originalImage]
        exact horig
      · simp only [stepM, hp]
        rw [applyResponse_originalImage]
        exact horig
  | @download m hm ih => exact ih
  | @reset m hm hp ih =>
    refine ⟨fun hlt => ?_, fun hr => ?_⟩
    · simp only [stepM] at hlt
      rw [hp] at hlt
      exact absurd hlt (by decide)
    · exact absurd rfl hr

/-- The run behind the counterexample to C5: upload `a.png`, start a
restoration, reset while the request is in flight, then let the late
response (carrying an image) arrive. -/
def lateResponseRun : MachineState :=
  stepM (stepM (stepM (stepM initMachine
    (Intent.upload (some ⟨Except.ok ("QUJD", "image/png"), "a.png"⟩)))
    (Intent.restore (some "key")))
    Intent.reset)
    (Intent.complete (Except.ok imageResponse))

/-- Counterexample to C5 as stated: a reachable state — reached by a Reset
issued while a restoration request is in flight, with the late response
arriving afterwards — in which `restoredImage` is non-null while
`originalImage` is null.  The late response is not discarded: its setters
run against the post-reset state. -/
theorem late_response_after_reset_violates_invariant :
    Reachable lateResponseRun ∧
    lateResponseRun.sess.restoredImage = some (dataUrl "image/png" "QkJC") ∧
    lateResponseRun.sess.originalImage = none := by
  refine ⟨?_, by decide, by decide⟩
  unfold lateResponseRun
  exact Reachable.step _ (Reachable.step _ (Reachable.step _
    (Reachable.step _ Reachable.init)))

/-- C5 (amended): in every state reachable by sequences in which Upload and
Reset are never issued while a restoration request is in flight,
`restoredImage` is non-null only if `originalImage` is non-null. -/
theorem restoredImage_requires_originalImage_safe (m : MachineState)
    (h : SafeReachable m) (hr : m.sess.restoredImage ≠ none) :
    m.sess.originalImage ≠ none :=
  (safeReachable_invariant m h).2 hr

/-- The run behind the witness for the amended C5: upload, restore, and let
the response arrive with no interleaved reset. -/
def safeRun : MachineState :=
  stepM (stepM (stepM initMachine
    (Intent.upload (some ⟨Except.ok ("QUJD", "image/png"), "a.png"⟩)))
    (Intent.restore (some "key")))
    (Intent.complete (Except.ok imageResponse))

/-- Witness for the amended C5: the safe run ends with a restored image and
the original image still present. -/
theorem restoredImage_requires_originalImage_safe_witness :
    safeRun.sess.originalImage ≠ none :=
  restoredImage_requires_originalImage_safe safeRun
    (SafeReachable.complete (Except.ok imageResponse)
      (SafeReachable.restore (some "key")
        (SafeReachable.upload (some ⟨Except.ok ("QUJD", "image/png"), "a.png"⟩)
          SafeReachable.init rfl)))
    (by decide)

end PhotoApp
